import Mathlib

/-!
Shallow embedding of the Python SDK adapters of `otlp-mmap`
(`src/python/otlp-mmap-sdk/src/otlp_mmap_sdk/`): the exporter registry
(`common.py`), the metric instruments (`metrics.py`), the async collector
(`collector.py`), the tracer and span (`trace.py`) and the logger
(`logs.py`).  Stateful Python code is embedded as explicit state passing;
every call an adapter makes into the native exporter is recorded in an
explicit call trace, so that the theorems can speak about which records
the adapters produce.
-/

namespace OtlpMmap

/-- A Python scalar attribute value as the adapters pass it:
either a string or an integer (the only shapes the embedded call sites
construct). -/
inductive PyVal where
  | str (s : String)
  | int (n : Int)
  deriving DecidableEq, Repr

/-- A Python number, `Union[int, float]`, as accepted by the instrument
methods.  Floats are modelled as rationals: the only operations the
adapters perform on them are the comparison with `0` and the conversion
`float(x)`, both of which rationals reproduce exactly for every
non-NaN float. -/
inductive PyNum where
  | int (n : Int)
  | float (q : ℚ)
  deriving DecidableEq, Repr

/-- The Python comparison `amount < 0` on `Union[int, float]`. -/
def PyNum.ltZero : PyNum → Bool
  | .int n => n < 0
  | .float q => q < 0

/-- The Python conversion `float(amount)`. -/
def PyNum.toFloat : PyNum → ℚ
  | .int n => (n : ℚ)
  | .float q => q

/-! ### `common.py`: the per-process exporter registry

`_exporters` is a module-level dict from file path to exporter instance,
guarded by `_lock`; `get_exporter` creates the exporter on first use of a
path and returns the stored one afterwards.  Exporter instances are
modelled by the fresh identifier the constructor call mints
(`create_otlp_mmap_exporter`), so two calls to the constructor never
return the same instance. -/

/-- The module-level state of `common.py`: the `_exporters` dict (an
association list, insertion ordered like a Python dict) and the supply of
fresh exporter-instance identifiers. -/
structure Registry where
  exporters : List (String × Nat)
  nextId : Nat
  deriving DecidableEq, Repr

/-- The state of `common.py` at interpreter start: empty dict. -/
def Registry.init : Registry := ⟨[], 0⟩

/-- Python dict lookup on the insertion-ordered association list. -/
def dictGet (l : List (String × Nat)) (k : String) : Option Nat :=
  match l with
  | [] => none
  | (k', v) :: rest => if k = k' then some v else dictGet rest k

/-- `get_exporter(file_path)` from `common.py`: under the lock, create the
exporter if the path is absent, then return the stored instance. -/
def getExporter (r : Registry) (filePath : String) : Nat × Registry :=
  match dictGet r.exporters filePath with
  | some e => (e, r)
  | none =>
      (r.nextId, ⟨r.exporters ++ [(filePath, r.nextId)], r.nextId + 1⟩)

/-- Run a sequence of `get_exporter` calls (for arbitrary paths),
returning the final registry state. -/
def runGets (r : Registry) : List String → Registry
  | [] => r
  | p :: ps => runGets (getExporter r p).2 ps

/-- Dict lookup is unaffected by appending entries at the end when the
key is already present. -/
theorem dictGet_append_left (l₁ l₂ : List (String × Nat)) (k : String)
    (v : Nat) (h : dictGet l₁ k = some v) :
    dictGet (l₁ ++ l₂) k = some v := by
  induction l₁ with
  | nil => simp [dictGet] at h
  | cons hd tl ih =>
      rcases hd with ⟨k', v'⟩
      by_cases hk : k = k'
      · simp [dictGet, hk] at h ⊢
        exact h
      · simp [dictGet, hk] at h ⊢
        exact ih h

/-- Appending a fresh binding makes it visible to dict lookup. -/
theorem dictGet_append_fresh (l : List (String × Nat)) (k : String)
    (v : Nat) (h : dictGet l k = none) :
    dictGet (l ++ [(k, v)]) k = some v := by
  induction l with
  | nil => simp [dictGet]
  | cons hd tl ih =>
      rcases hd with ⟨k', v'⟩
      by_cases hk : k = k'
      · simp [dictGet, hk] at h
      · simp [dictGet, hk] at h ⊢
        exact ih h

/-- After `get_exporter r p`, the registry stores the returned instance
under `p`. -/
theorem getExporter_stores (r : Registry) (p : String) :
    dictGet ((getExporter r p).2).exporters p = some (getExporter r p).1 := by
  unfold getExporter
  cases h : dictGet r.exporters p with
  | some e => simp [h]
  | none => simpa [h] using dictGet_append_fresh r.exporters p r.nextId h

/-- A `get_exporter` call for any path preserves every stored mapping. -/
theorem getExporter_preserves (r : Registry) (p q : String) (e : Nat)
    (h : dictGet r.exporters p = some e) :
    dictGet ((getExporter r q).2).exporters p = some e := by
  unfold getExporter
  cases hq : dictGet r.exporters q with
  | some e' => simpa [hq]
  | none =>
      simp [hq]
      exact dictGet_append_left _ _ _ _ h

/-- Any sequence of `get_exporter` calls preserves every stored
mapping. -/
theorem runGets_preserves (ps : List String) (r : Registry)
    (p : String) (e : Nat)
    (h : dictGet r.exporters p = some e) :
    dictGet (runGets r ps).exporters p = some e := by
  induction ps generalizing r with
  | nil => simpa [runGets]
  | cons q qs ih =>
      simp only [runGets]
      exact ih _ (getExporter_preserves r p q e h)

/-- If a path is stored, `get_exporter` returns the stored instance and
leaves the state unchanged. -/
theorem getExporter_of_lookup (r : Registry) (p : String) (e : Nat)
    (h : dictGet r.exporters p = some e) :
    getExporter r p = (e, r) := by
  unfold getExporter
  simp [h]

/-- C1: `get_exporter` is a per-process singleton registry keyed by file
path.  First conjunct: from any registry state, after a first
`get_exporter(p)` call and then any further sequence of `get_exporter`
calls (for arbitrary paths), a later `get_exporter(p)` returns the same
exporter instance, and an immediately repeated call returns the stored
instance without changing the registry.  Second conjunct: calls with
distinct paths may return distinct exporters (witnessed from the initial
registry). -/
theorem getExporter_singleton_per_path :
    (∀ (r : Registry) (p : String) (ps : List String),
        (getExporter (runGets (getExporter r p).2 ps) p).1
          = (getExporter r p).1 ∧
        getExporter (getExporter r p).2 p
          = ((getExporter r p).1, (getExporter r p).2)) ∧
    (∃ p q : String, p ≠ q ∧
        (getExporter Registry.init p).1
          ≠ (getExporter (getExporter Registry.init p).2 q).1) := by
  constructor
  · intro r p ps
    have hstore := getExporter_stores r p
    have hlater := runGets_preserves ps _ p _ hstore
    constructor
    · rw [getExporter_of_lookup _ _ _ hlater]
    · exact getExporter_of_lookup _ _ _ hstore
  · refine ⟨"a", "b", by decide, ?_⟩
    simp [Registry.init, getExporter, dictGet]

/-! ### `metrics.py`: instruments

Every adapter method is embedded as a function returning the list of
`record_measurement` calls it performs against the exporter façade, so
the theorems can count and inspect exactly what reaches the metric
lane. -/

/-- An aggregation-descriptor dict as constructed in `metrics.py`:
a sum with a temporality code and a monotonic flag, a gauge with no
parameters, or a histogram with a temporality code and a list of bucket
boundaries. -/
inductive Aggregation where
  | sum (aggregationTemporality : Nat) (isMonotonic : Bool)
  | gauge
  | histogram (aggregationTemporality : Nat) (bucketBoundaries : List ℚ)
  deriving DecidableEq, Repr

/-- The bucket-boundary list of a histogram descriptor; `none` for the
other descriptor shapes. -/
def Aggregation.boundaries : Aggregation → Option (List ℚ)
  | .histogram _ bs => some bs
  | _ => none

/-- The value slot of a `record_measurement` call: the wire model allows
an int64 or a double, and the tag records which one the adapter
passed. -/
inductive MeasValue where
  | int64 (n : Int)
  | double (q : ℚ)
  deriving DecidableEq, Repr

/-- One `record_measurement(metric_ref, attributes, time_ns, value,
span_context)` call as the adapters issue it. -/
structure MeasCall where
  metricRef : Nat
  attrs : List (String × PyVal)
  timeNs : Nat
  value : MeasValue
  spanCtx : Option Unit
  deriving DecidableEq, Repr

/-- One `create_metric_stream(scope_ref, name, description, unit,
aggregation)` call as `MmapInstrument.__init__` issues it. -/
structure StreamCall where
  scopeRef : Nat
  name : String
  description : String
  unit : String
  aggregation : Aggregation
  deriving DecidableEq, Repr

/-- `MmapInstrument._record` from `metrics.py`: one `record_measurement`
call with `attributes or {}` (the empty dict when absent), the current
time, `float(value)`, and no span context. -/
def MmapInstrument.record (metricRef : Nat) (value : PyNum)
    (attributes : Option (List (String × PyVal))) (nowNs : Nat) :
    List MeasCall :=
  [{ metricRef := metricRef, attrs := attributes.getD [],
     timeNs := nowNs, value := .double value.toFloat, spanCtx := none }]

/-- `MmapCounter.__init__`: the metric stream is created with a Delta
monotonic sum descriptor. -/
def MmapCounter.initStream (scopeRef : Nat) (name unit description : String) :
    StreamCall :=
  { scopeRef := scopeRef, name := name, description := description,
    unit := unit, aggregation := .sum 1 true }

/-- `MmapCounter.add`: a negative amount returns before `_record`;
otherwise `_record` is called once. -/
def MmapCounter.add (metricRef : Nat) (amount : PyNum)
    (attributes : Option (List (String × PyVal))) (nowNs : Nat) :
    List MeasCall :=
  if amount.ltZero then []
  else MmapInstrument.record metricRef amount attributes nowNs

/-- `MmapUpDownCounter.add`: unconditionally calls `_record` once. -/
def MmapUpDownCounter.add (metricRef : Nat) (amount : PyNum)
    (attributes : Option (List (String × PyVal))) (nowNs : Nat) :
    List MeasCall :=
  MmapInstrument.record metricRef amount attributes nowNs

/-- `MmapHistogram.__init__`: the metric stream is created with a Delta
histogram descriptor whose bucket-boundary list is the empty list. -/
def MmapHistogram.initStream (scopeRef : Nat) (name unit description : String) :
    StreamCall :=
  { scopeRef := scopeRef, name := name, description := description,
    unit := unit, aggregation := .histogram 1 [] }

/-- `MmapHistogram.record`: unconditionally calls `_record` once. -/
def MmapHistogram.record (metricRef : Nat) (amount : PyNum)
    (attributes : Option (List (String × PyVal))) (nowNs : Nat) :
    List MeasCall :=
  MmapInstrument.record metricRef amount attributes nowNs

/-- C2: for a counter (monotonic sum), `add(x)` with `x < 0` performs no
`record_measurement` call, and `add(x)` with `x >= 0` performs exactly
one. -/
theorem counter_add_negative_policy (metricRef : Nat) (amount : PyNum)
    (attributes : Option (List (String × PyVal))) (nowNs : Nat) :
    (amount.ltZero = true →
      MmapCounter.add metricRef amount attributes nowNs = []) ∧
    (amount.ltZero = false →
      (MmapCounter.add metricRef amount attributes nowNs).length = 1) := by
  constructor
  · intro h
    simp [MmapCounter.add, h]
  · intro h
    simp [MmapCounter.add, h, MmapInstrument.record]

/-- Witness for C2 at the concrete amounts `-1` and `2`. -/
theorem counter_add_negative_policy_witness :
    MmapCounter.add 7 (.int (-1)) none 5 = [] ∧
    (MmapCounter.add 7 (.int 2) none 5).length = 1 :=
  ⟨(counter_add_negative_policy 7 (.int (-1)) none 5).1 (by decide),
   (counter_add_negative_policy 7 (.int 2) none 5).2 (by decide)⟩

/-- C7: `create_histogram` always creates the metric stream with a
histogram aggregation descriptor whose bucket-boundaries list is
empty. -/
theorem histogram_stream_empty_boundaries (scopeRef : Nat)
    (name unit description : String) :
    (MmapHistogram.initStream scopeRef name unit description).aggregation
        = .histogram 1 [] ∧
    ((MmapHistogram.initStream scopeRef name unit
        description).aggregation).boundaries = some [] := by
  exact ⟨rfl, rfl⟩

/-- C10: every `record_measurement` call produced by `Counter.add`,
`UpDownCounter.add` or `Histogram.record` carries the value
`float(amount)` tagged as a double, for every int or float amount. -/
theorem adapter_measurements_are_double (metricRef : Nat) (amount : PyNum)
    (attributes : Option (List (String × PyVal))) (nowNs : Nat) :
    ((MmapCounter.add metricRef amount attributes nowNs).all
        fun c => decide (c.value = MeasValue.double amount.toFloat)) = true ∧
    ((MmapUpDownCounter.add metricRef amount attributes nowNs).all
        fun c => decide (c.value = MeasValue.double amount.toFloat)) = true ∧
    ((MmapHistogram.record metricRef amount attributes nowNs).all
        fun c => decide (c.value = MeasValue.double amount.toFloat)) = true := by
  refine ⟨?_, ?_, ?_⟩ <;>
    cases h : amount.ltZero <;>
    simp [MmapCounter.add, MmapUpDownCounter.add, MmapHistogram.record,
      MmapInstrument.record, h]

/-! ### `collector.py`: the async collector

A registered callback is embedded by its observable behaviour when
invoked: it either returns normally (in the observable-instrument use
case, returning an iterable of observations, each a value with an
attribute dict) or raises an exception.  `Collector._collect` copies the
callback list under the lock and then invokes each entry inside
`try ... except Exception: pass`.  The embedding returns the full trace
of the tick: how many callbacks were invoked, which `record_measurement`
calls the tick itself made, how many drop records it emitted, and
whether an exception escaped the tick. -/

/-- The behaviour of one registered callback when invoked. -/
inductive CbResult where
  | yields (obs : List (ℚ × List (String × PyVal)))
  | raises
  deriving DecidableEq, Repr

/-- The observable trace of one collector tick. -/
structure TickTrace where
  invoked : Nat
  measurements : List MeasCall
  drops : Nat
  escaped : Bool
  deriving DecidableEq, Repr

namespace Collector

/-- `Collector._collect` from `collector.py`: iterate over the copied
callback list; each callback is invoked inside a `try` block whose
`except Exception` handler does nothing (`pass`), so a normal return and
a raising callback lead to the same continuation; the return value of a
callback is discarded, and the tick body contains no
`record_measurement` call and emits no drop record. -/
def collect : List CbResult → TickTrace
  | [] => { invoked := 0, measurements := [], drops := 0, escaped := false }
  | cb :: rest =>
      let tail := collect rest
      match cb with
      | .yields _obs =>
          { invoked := tail.invoked + 1, measurements := tail.measurements,
            drops := tail.drops, escaped := tail.escaped }
      | .raises =>
          { invoked := tail.invoked + 1, measurements := tail.measurements,
            drops := tail.drops, escaped := tail.escaped }

/-- The lifecycle of the `threading.Thread` object owned by a
collector: not yet started, started and running, or finished. -/
inductive ThreadStatus where
  | notStarted
  | alive
  | dead
  deriving DecidableEq, Repr

/-- `Thread.is_alive()`. -/
def ThreadStatus.isAlive : ThreadStatus → Bool
  | .alive => true
  | _ => false

/-- `Thread.start()`: transitions a not-yet-started thread to running;
raises `RuntimeError` if `start` was already called on the thread
(whether it is still running or has finished). -/
def threadStart : ThreadStatus → Except String ThreadStatus
  | .notStarted => .ok .alive
  | .alive => .error "threads can only be started once"
  | .dead => .error "threads can only be started once"

/-- The collector state the `start` path observes: its worker thread and
the stop event.  While the stop event is never set, the worker loop in
`_run` never exits, so in a start-only call sequence a started thread
stays alive. -/
structure State where
  thread : ThreadStatus
  stopSet : Bool
  deriving DecidableEq, Repr

/-- The state `Collector.__init__` establishes: a fresh unstarted thread
and an unset stop event. -/
def State.init : State := ⟨.notStarted, false⟩

/-- `Collector.start`: if the thread is not alive, call
`Thread.start()`; otherwise do nothing.  The second component is the
exception the call raises, if any. -/
def start (s : State) : State × Option String :=
  if s.thread.isAlive then (s, none)
  else
    match threadStart s.thread with
    | .ok t => ({ s with thread := t }, none)
    | .error e => (s, some e)

/-- The number of worker threads of the collector currently running. -/
def State.workers (s : State) : Nat :=
  if s.thread.isAlive then 1 else 0

/-- Run `n` consecutive `start()` calls, collecting the exception (if
any) each call raises. -/
def runStarts : Nat → State → State × List (Option String)
  | 0, s => (s, [])
  | n + 1, s =>
      let (s', e) := start s
      let (s'', es) := runStarts n s'
      (s'', e :: es)

/-- Starting from the running state, further `start()` calls are
no-ops that raise nothing. -/
theorem runStarts_running (n : Nat) :
    runStarts n ⟨.alive, false⟩ = (⟨.alive, false⟩, List.replicate n none) := by
  induction n with
  | zero => simp [runStarts]
  | succ k ih =>
      simp [runStarts, start, ThreadStatus.isAlive, ih, List.replicate]

/-- C6: `Collector.start` is idempotent.  From a freshly constructed
collector, any positive number of `start()` calls leaves the collector
in the same state as a single call, no call raises an exception, and
exactly one worker thread is running afterwards. -/
theorem collector_start_idempotent (n : Nat) :
    (runStarts (n + 1) State.init).1 = (start State.init).1 ∧
    (runStarts (n + 1) State.init).2 = List.replicate (n + 1) none ∧
    ((runStarts (n + 1) State.init).1).workers = 1 := by
  have hfirst : start State.init = (⟨.alive, false⟩, none) := by
    simp [start, State.init, ThreadStatus.isAlive, threadStart]
  have hrun : runStarts (n + 1) State.init
      = (⟨.alive, false⟩, none :: List.replicate n none) := by
    simp [runStarts, hfirst, runStarts_running]
  refine ⟨?_, ?_, ?_⟩
  · rw [hrun, hfirst]
  · rw [hrun]
    simp [List.replicate]
  · rw [hrun]
    simp [State.workers, ThreadStatus.isAlive]

/-- C4 (amended): a collector tick invokes every callback in the copied
list; an exception raised by a callback is caught inside the tick and
never propagates, and the callbacks after the raising one are still
invoked — but the exception is silently ignored: the tick emits no drop
record. -/
theorem collect_swallows_exceptions (cbs : List CbResult) :
    (collect cbs).invoked = cbs.length ∧
    (collect cbs).escaped = false ∧
    (collect cbs).drops = 0 := by
  induction cbs with
  | nil => simp [collect]
  | cons cb rest ih =>
      cases cb <;> simpa [collect] using ih

/-- Counterexample to C4 as stated: with a callback list whose first
entry raises and whose second returns normally, both callbacks are
invoked and nothing escapes, but the tick records zero drops — the
raised exception is not recorded as a drop, contradicting the claimed
`recorded as a drop`. -/
theorem collect_drop_not_recorded_cex :
    (collect [CbResult.raises, CbResult.yields []]).invoked = 2 ∧
    (collect [CbResult.raises, CbResult.yields []]).escaped = false ∧
    (collect [CbResult.raises, CbResult.yields []]).drops = 0 ∧
    ¬ 1 ≤ (collect [CbResult.raises, CbResult.yields []]).drops := by
  decide

end Collector

/-- The construction trace of `MmapObservableGauge.__init__`: the
`create_metric_stream` call it makes (with a gauge descriptor), the
callback list it stores on the instrument, and the callbacks it
registers with a collector — none, since the source stores the list and
registers nothing (the registration mechanism is a TODO in
`metrics.py`). -/
structure ObservableGaugeInit where
  streamCall : StreamCall
  storedCallbacks : List CbResult
  collectorRegistrations : List CbResult
  deriving DecidableEq, Repr

/-- `MmapObservableGauge.__init__` from `metrics.py`. -/
def MmapObservableGauge.init (scopeRef : Nat)
    (name unit description : String) (callbacks : List CbResult) :
    ObservableGaugeInit :=
  let stream : StreamCall :=
    { scopeRef := scopeRef, name := name, description := description,
      unit := unit, aggregation := .gauge }
  { streamCall := stream,
    storedCallbacks := callbacks,
    collectorRegistrations := [] }

/-- C3 at the spec's S5 input: creating an observable gauge whose
callback yields the observation (42.0, k := "v") registers nothing with
any collector, and a collector tick — whatever callbacks are registered
with it — makes no `record_measurement` call at all; in particular no
Measurement with value 42.0 reaches the metric lane. -/
theorem collector_tick_records_no_measurement :
    (MmapObservableGauge.init 1 ("g") ("") ("")
        [CbResult.yields [(42, [(("k"), PyVal.str ("v"))])]]
      ).collectorRegistrations = [] ∧
    (∀ cbs : List CbResult, (Collector.collect cbs).measurements = []) ∧
    (Collector.collect
        [CbResult.yields [(42, [(("k"), PyVal.str ("v"))])]]
      ).measurements.length = 0 := by
  refine ⟨rfl, ?_, rfl⟩
  intro cbs
  induction cbs with
  | nil => simp [Collector.collect]
  | cons cb rest ih => cases cb <;> simpa [Collector.collect] using ih

/-! ### `trace.py`: tracer and span

Byte strings (trace and span identifiers) are embedded as lists of byte
values; `int.to_bytes(k, "big")` and `int.from_bytes(b, "big")` become
the explicit base-256 conversions below.  The randomness of
`secrets.token_bytes` is passed in as an argument. -/

/-- `n.to_bytes(len, "big")`: the big-endian byte expansion of a
natural number to a fixed width. -/
def natToBytesBE (len n : Nat) : List Nat :=
  (List.range len).map fun i => n / 256 ^ (len - 1 - i) % 256

/-- `int.from_bytes(b, "big")`. -/
def bytesToNatBE (b : List Nat) : Nat :=
  b.foldl (fun acc d => acc * 256 + d) 0

/-- Python `x or now` for an optional integer: `None` and `0` are falsy,
any other value is returned as given.  This is the idiom
`end_time or now_ns()` / `start_time or now_ns()` /
`timestamp or now_ns()` of the adapters. -/
def pyOrNow (x : Option Nat) (nowNs : Nat) : Nat :=
  match x with
  | some t => if t ≠ 0 then t else nowNs
  | none => nowNs

/-- The `opentelemetry.trace.SpanKind` values the adapter maps. -/
inductive SpanKind where
  | internal
  | server
  | client
  | producer
  | consumer
  deriving DecidableEq, Repr

/-- The kind-to-integer mapping in `MmapSpan.__init__`: Internal is the
default 1, Server 2, Client 3, Producer 4, Consumer 5. -/
def SpanKind.toInt : SpanKind → Nat
  | .server => 2
  | .client => 3
  | .producer => 4
  | .consumer => 5
  | .internal => 1

/-- The parent span context `start_span` reads from the caller-provided
context (`trace.get_current_span(context).get_span_context()`): its
identifiers as Python ints and its validity flag. -/
structure ParentCtx where
  traceId : Nat
  spanId : Nat
  isValid : Bool
  deriving DecidableEq, Repr

/-- The `opentelemetry.trace.SpanContext` the tracer constructs for the
new span.  `TraceFlags.SAMPLED` is the integer 1. -/
structure SpanContextPy where
  traceId : Nat
  spanId : Nat
  isRemote : Bool
  traceFlags : Nat
  deriving DecidableEq, Repr

/-- One `record_span_start` call as `MmapSpan.__init__` issues it. -/
structure SpanStartCall where
  scopeRef : Nat
  traceIdBytes : List Nat
  spanIdBytes : List Nat
  parentSpanId : Option (List Nat)
  flags : Nat
  name : String
  kindInt : Nat
  startTimeNs : Nat
  attrs : List (String × PyVal)
  deriving DecidableEq, Repr

/-- One `record_span_end` call as `MmapSpan.end` issues it. -/
structure SpanEndCall where
  scopeRef : Nat
  traceIdBytes : List Nat
  spanIdBytes : List Nat
  endTimeNs : Nat
  deriving DecidableEq, Repr

/-- The span-local state `MmapSpan.__init__` stores that the later
methods read. -/
structure MmapSpanState where
  context : SpanContextPy
  scopeRef : Nat
  traceIdBytes : List Nat
  spanIdBytes : List Nat
  endTime : Option Nat
  deriving DecidableEq, Repr

/-- `MmapSpan.__init__` from `trace.py`: store the context and
identifier bytes, leave `_end_time` unset, compute the integer kind and
the flags byte (bit 0 set exactly when the context's trace flags have
the sampled bit), and issue one `record_span_start` call. -/
def MmapSpan.init (name : String) (context : SpanContextPy)
    (scopeRef : Nat) (kind : SpanKind)
    (attributes : Option (List (String × PyVal)))
    (startTime : Nat) (parentSpanId : Option (List Nat))
    (traceIdBytes spanIdBytes : List Nat) :
    MmapSpanState × SpanStartCall :=
  let flags : Nat := if context.traceFlags &&& 1 ≠ 0 then 0 ||| 1 else 0
  (⟨context, scopeRef, traceIdBytes, spanIdBytes, none⟩,
   { scopeRef := scopeRef, traceIdBytes := traceIdBytes,
     spanIdBytes := spanIdBytes, parentSpanId := parentSpanId,
     flags := flags, name := name, kindInt := kind.toInt,
     startTimeNs := startTime, attrs := attributes.getD [] })

/-- `MmapTracer.start_span` from `trace.py`: take the trace id and the
parent span id from a valid parent context, otherwise draw fresh random
bytes; always construct the new `SpanContext` with
`trace_flags = TraceFlags.SAMPLED`; then construct the `MmapSpan`,
which records the span start.  `freshTraceId` and `freshSpanId` stand
for the `secrets.token_bytes` draws. -/
def MmapTracer.startSpan (scopeRef : Nat) (name : String)
    (context : Option ParentCtx) (kind : SpanKind)
    (attributes : Option (List (String × PyVal)))
    (startTime : Option Nat) (freshTraceId freshSpanId : List Nat)
    (nowNs : Nat) : MmapSpanState × SpanStartCall :=
  let parent := context
  let idPair : List Nat × Option (List Nat) :=
    match parent with
    | some p =>
        if p.isValid then (natToBytesBE 16 p.traceId,
          some (natToBytesBE 8 p.spanId))
        else (freshTraceId, none)
    | none => (freshTraceId, none)
  let traceIdBytes := idPair.1
  let parentSpanIdBytes := idPair.2
  let spanIdBytes := freshSpanId
  let spanContext : SpanContextPy :=
    { traceId := bytesToNatBE traceIdBytes,
      spanId := bytesToNatBE spanIdBytes,
      isRemote := false, traceFlags := 1 }
  MmapSpan.init name spanContext scopeRef kind attributes
    (pyOrNow startTime nowNs) parentSpanIdBytes traceIdBytes spanIdBytes

/-- `MmapSpan.end` from `trace.py`: return immediately when `_end_time`
is already set; otherwise store `end_time or now_ns()` and issue one
`record_span_end` call. -/
def MmapSpan.endSpan (s : MmapSpanState) (endTime : Option Nat)
    (nowNs : Nat) : MmapSpanState × List SpanEndCall :=
  match s.endTime with
  | some _ => (s, [])
  | none =>
      let t := pyOrNow endTime nowNs
      ({ s with endTime := some t },
       [{ scopeRef := s.scopeRef, traceIdBytes := s.traceIdBytes,
          spanIdBytes := s.spanIdBytes, endTimeNs := t }])

/-- C9: every span started through `MmapTracer.start_span` is recorded
with the sampled bit set: `record_span_start` is invoked with
`flags = 1` for every combination of parent context and caller
input. -/
theorem span_start_always_sampled (scopeRef : Nat) (name : String)
    (context : Option ParentCtx) (kind : SpanKind)
    (attributes : Option (List (String × PyVal)))
    (startTime : Option Nat) (freshTraceId freshSpanId : List Nat)
    (nowNs : Nat) :
    (MmapTracer.startSpan scopeRef name context kind attributes
        startTime freshTraceId freshSpanId nowNs).2.flags = 1 := by
  simp [MmapTracer.startSpan, MmapSpan.init]

/-- C8: `MmapSpan.end` is idempotent.  On a span whose `_end_time` is
unset, the first `end()` call issues exactly one `record_span_end` call
carrying the given end time (or, when the given time is `None` or `0`,
the current time) and stores that time; every later `end()` call, with
any arguments, changes nothing and issues no call. -/
theorem span_end_idempotent (s : MmapSpanState) (endTime : Option Nat)
    (nowNs : Nat) (h : s.endTime = none) :
    (MmapSpan.endSpan s endTime nowNs).2
      = [{ scopeRef := s.scopeRef, traceIdBytes := s.traceIdBytes,
           spanIdBytes := s.spanIdBytes,
           endTimeNs := pyOrNow endTime nowNs }] ∧
    ((MmapSpan.endSpan s endTime nowNs).1).endTime
      = some (pyOrNow endTime nowNs) ∧
    (∀ (endTime₂ : Option Nat) (nowNs₂ : Nat),
      MmapSpan.endSpan (MmapSpan.endSpan s endTime nowNs).1 endTime₂
          nowNs₂
        = ((MmapSpan.endSpan s endTime nowNs).1, [])) := by
  refine ⟨?_, ?_, ?_⟩
  · simp [MmapSpan.endSpan, h]
  · simp [MmapSpan.endSpan, h]
  · intro endTime₂ nowNs₂
    simp [MmapSpan.endSpan, h]

/-- Witness for C8 on a concrete freshly started span, ended at time
2000 and then ended again at time 3000. -/
theorem span_end_idempotent_witness :
    (MmapSpan.endSpan ⟨⟨1, 2, false, 1⟩, 5, [], [], none⟩ (some 2000)
        1500).2
      = [{ scopeRef := 5, traceIdBytes := [], spanIdBytes := [],
           endTimeNs := 2000 }] ∧
    ((MmapSpan.endSpan ⟨⟨1, 2, false, 1⟩, 5, [], [], none⟩ (some 2000)
        1500).1).endTime = some 2000 ∧
    MmapSpan.endSpan
        (MmapSpan.endSpan ⟨⟨1, 2, false, 1⟩, 5, [], [], none⟩
          (some 2000) 1500).1 (some 3000) 2500
      = ((MmapSpan.endSpan ⟨⟨1, 2, false, 1⟩, 5, [], [], none⟩
          (some 2000) 1500).1, []) := by
  have h := span_end_idempotent ⟨⟨1, 2, false, 1⟩, 5, [], [], none⟩
    (some 2000) 1500 rfl
  exact ⟨h.1, h.2.1, h.2.2 (some 3000) 2500⟩

/-! ### `logs.py`: the logger adapter

`MmapLogger.emit` builds an attribute dict from the log record and calls
`record_event` with five positional arguments: scope ref, span context,
event-name ref, timestamp, attributes.  The façade interface for
`record_event` — as exercised by `tests/test_bindings.py` and by
`MmapSpan.add_event` in `trace.py` — carries the severity number and the
severity text as first-class arguments between the timestamp and the
attributes; `emit` instead folds them into the attribute dict. -/

/-- Python truthiness of the scalar values the logger inspects: the
empty string and the integer zero are falsy. -/
def PyVal.truthy : PyVal → Bool
  | .str s => s ≠ ""
  | .int n => n ≠ 0

/-- Python `str()` on the scalar values the logger stringifies. -/
def PyVal.toStr : PyVal → String
  | .str s => s
  | .int n => toString n

/-- Python truthiness of an optional integer field: `None` and `0` are
falsy. -/
def optNatTruthy : Option Nat → Bool
  | some n => n ≠ 0
  | none => false

/-- Python dict item assignment `d[k] = v` on the insertion-ordered
association list: an existing key keeps its position and gets the new
value, a fresh key is appended. -/
def dictSet (l : List (String × PyVal)) (k : String) (v : PyVal) :
    List (String × PyVal) :=
  if l.any fun kv => kv.1 = k then
    l.map fun kv => if kv.1 = k then (k, v) else kv
  else l ++ [(k, v)]

/-- Modelled from the spec: `record_string` of the native exporter
(`otlp_mmap_internal`, not under `src/`) interns a string and returns
its stable handle; handles are assigned monotonically starting at 1.
The state is the exporter's table of interned strings. -/
structure StringTable where
  strings : List String
  deriving DecidableEq, Repr

/-- Position of a string in the intern table, if present. -/
def idxOf (l : List String) (s : String) : Option Nat :=
  match l with
  | [] => none
  | x :: rest => if x = s then some 0 else (idxOf rest s).map (· + 1)

/-- Modelled from the spec: `record_string(bytes) → handle`, the
interning operation of the façade (§6); an already interned string
returns its existing handle, a new string gets the next handle. -/
def recordString (t : StringTable) (s : String) : Nat × StringTable :=
  match idxOf t.strings s with
  | some i => (i + 1, t)
  | none => (t.strings.length + 1, ⟨t.strings ++ [s]⟩)

/-- The span-context dict the adapters pass to `record_event`:
identifier byte strings and a flags byte. -/
structure SpanCtxDict where
  traceId : List Nat
  spanId : List Nat
  flags : Nat
  deriving DecidableEq, Repr

/-- A `record_event` call as the façade interface defines it
(spec §6, `tests/test_bindings.py`, `MmapSpan.add_event`): scope,
span context, event name, timestamp, severity number, severity text,
attributes. -/
structure RecordEventCall where
  scopeRef : Nat
  spanCtx : Option SpanCtxDict
  eventName : String
  timeNs : Nat
  severityNumber : Nat
  severityText : String
  attrs : List (String × PyVal)
  deriving DecidableEq, Repr

/-- The positional argument tuple `MmapLogger.emit` actually passes to
`record_event`: five components, with no severity fields. -/
structure EventArgsFromLogs where
  scopeRef : Nat
  spanCtx : Option SpanCtxDict
  eventNameRef : Nat
  timeNs : Nat
  attrs : List (String × PyVal)
  deriving DecidableEq, Repr

/-- `MmapSpan.add_event` from `trace.py`: one `record_event` call with
the span's context dict (flags 1), severity number 0 and empty severity
text passed as first-class arguments. -/
def MmapSpan.addEvent (s : MmapSpanState) (name : String)
    (attributes : Option (List (String × PyVal)))
    (timestamp : Option Nat) (nowNs : Nat) : RecordEventCall :=
  let scDict : SpanCtxDict :=
    { traceId := s.traceIdBytes, spanId := s.spanIdBytes, flags := 1 }
  { scopeRef := s.scopeRef, spanCtx := some scDict, eventName := name,
    timeNs := pyOrNow timestamp nowNs, severityNumber := 0,
    severityText := "", attrs := attributes.getD [] }

/-- The `opentelemetry._logs.LogRecord` fields `emit` reads.  The
severity number is modelled as the plain integer the SDK tests pass
(`int(record.severity_number)` requires an int-convertible value). -/
structure LogRecordPy where
  timestamp : Option Nat
  traceId : Option Nat
  spanId : Option Nat
  traceFlags : Option Nat
  severityText : Option String
  severityNumber : Option Int
  body : Option PyVal
  attributes : Option (List (String × PyVal))
  deriving DecidableEq, Repr

/-- `MmapLogger.emit` from `logs.py`: intern the fixed event name, start
from `record.attributes or` the empty dict, fold a truthy body
(stringified), a truthy severity text and a truthy severity number into
the attribute dict, build the span-context dict only when both trace id
and span id are truthy, and pass the five positional arguments to
`record_event`. -/
def MmapLogger.emit (t : StringTable) (scopeRef : Nat)
    (record : LogRecordPy) (nowNs : Nat) :
    EventArgsFromLogs × StringTable :=
  let interned := recordString t ("log")
  let eventNameRef := interned.1
  let attrs0 := record.attributes.getD []
  let attrs1 :=
    match record.body with
    | some b => if b.truthy then dictSet attrs0 ("body") (.str b.toStr)
                else attrs0
    | none => attrs0
  let attrs2 :=
    match record.severityText with
    | some s => if s ≠ "" then dictSet attrs1 ("severity_text") (.str s)
                else attrs1
    | none => attrs1
  let attrs3 :=
    match record.severityNumber with
    | some n => if n ≠ 0 then
                  dictSet attrs2 ("severity_number") (.int n)
                else attrs2
    | none => attrs2
  let ctxFlags :=
    match record.traceFlags with
    | some f => if f ≠ 0 then f else 0
    | none => 0
  let ctx : Option SpanCtxDict :=
    if optNatTruthy record.traceId && optNatTruthy record.spanId then
      some { traceId := natToBytesBE 16 (record.traceId.getD 0),
             spanId := natToBytesBE 8 (record.spanId.getD 0),
             flags := ctxFlags }
    else none
  ({ scopeRef := scopeRef, spanCtx := ctx, eventNameRef := eventNameRef,
     timeNs := pyOrNow record.timestamp nowNs, attrs := attrs3 },
   interned.2)

/-- The log record of `tests/test_sdk.py::test_logging`: timestamp
123456789, invalid trace and span ids, severity text INFO, severity
number 9, body hello, one attribute. -/
def testLogRecord : LogRecordPy :=
  { timestamp := some 123456789, traceId := some 0, spanId := some 0,
    traceFlags := none, severityText := some ("INFO"),
    severityNumber := some 9, body := some (.str ("hello")),
    attributes := some [(("a"), PyVal.str ("b"))] }

/-- C5 evaluated at the failing input: on the SDK test's log record,
`emit` passes `record_event` a five-component argument tuple — scope,
no span context, the interned name, the record timestamp, and an
attribute dict into which the stringified body, the severity text and
the severity number have been folded.  The severity values travel only
inside the attribute dict; the call carries no first-class
severity-number or severity-text argument, contrary to the façade
interface exercised by `tests/test_bindings.py` and by
`MmapSpan.add_event`. -/
theorem logger_emit_severity_in_attributes :
    MmapLogger.emit ⟨[]⟩ 3 testLogRecord 999
      = ({ scopeRef := 3, spanCtx := none, eventNameRef := 1,
           timeNs := 123456789,
           attrs := [(("a"), PyVal.str ("b")),
                     (("body"), PyVal.str ("hello")),
                     (("severity_text"), PyVal.str ("INFO")),
                     (("severity_number"), PyVal.int 9)] },
         ⟨[("log")]⟩) := by
  decide

end OtlpMmap
